import Mathlib

/-!
Shallow embedding of the paTHFinder model-coordination subsystem
(`app/ml/model_coordinator.py`, `app/ml/ai_model.py`, `app/ml/ann_model.py`)
and proofs about it.

Numeric values are modelled as rationals; Python dictionaries as association
lists; Python exceptions as an explicit error type threaded through `Except`.
Trained scikit-learn estimators are opaque learned functions: they enter the
embedding as parameters, since their behaviour is determined by training data
and not by the source code under verification.
-/

namespace PaTHFinder

/-- Python runtime values that appear as route attributes and preference
values in this subsystem. -/
inductive PyVal where
  | str (s : String)
  | num (q : Rat)
  | boolean (b : Bool)
  | noneVal
deriving Repr, DecidableEq, BEq

/-- Python truthiness for the values of `PyVal`
(`None`, `0`, `0.0`, `""` and `False` are falsy). -/
def PyVal.truthy : PyVal → Bool
  | .str s => !s.isEmpty
  | .num q => q != 0
  | .boolean b => b
  | .noneVal => false

/-- A Python `dict` with string keys, as used for `user_preferences` and for
route objects, modelled as an association list (first binding wins). -/
abbrev PyDict := List (String × PyVal)

/-- Embedding of `d.get(k)` / `d[k]` lookup on a Python dict. -/
def PyDict.get (d : PyDict) (k : String) : Option PyVal :=
  (d.find? (fun p => p.1 == k)).map (·.2)

/-- Embedding of `d.get(k, default)`. -/
def PyDict.getD (d : PyDict) (k : String) (dflt : PyVal) : PyVal :=
  (d.get k).getD dflt

/-- Embedding of `hasattr(obj, name)` for objects modelled as dicts of
attributes. -/
def PyDict.hasattr (d : PyDict) (k : String) : Bool :=
  (d.find? (fun p => p.1 == k)).isSome

/-- Python exception classes raised in this subsystem. -/
inductive PyErr where
  | typeError
  | keyError (k : String)
  | valueError (msg : String)
  | attributeError (name : String)
  | notFittedError
  | indexError
deriving Repr, DecidableEq

/-! ### Preference-derived scores (`ModelCoordinator.get_*_score`) -/

/-- Embedding of `ModelCoordinator.get_traffic_score`:
`traffic_map = {avoid: 0.0, neutral: 0.5}` applied to
`preferences.get(traffic_preference, neutral)` with default `0.5`. -/
def get_traffic_score (preferences : PyDict) : Rat :=
  let v := preferences.getD "traffic_preference" (.str "neutral")
  if v = .str "avoid" then 0
  else if v = .str "neutral" then 1/2
  else 1/2

/-- Embedding of `ModelCoordinator.get_surface_score`:
`surface_map = {asphalt: 1.0, dirt: 0.7, grass: 0.4}` applied to
`preferences.get(surface_preference, asphalt)` with default `0.7`. -/
def get_surface_score (preferences : PyDict) : Rat :=
  let v := preferences.getD "surface_preference" (.str "asphalt")
  if v = .str "asphalt" then 1
  else if v = .str "dirt" then 7/10
  else if v = .str "grass" then 2/5
  else 7/10

/-- Embedding of `ModelCoordinator.get_safety_score`: base `0.8`, plus `0.1`
for each of a truthy `require_lighting` / `require_sidewalks`, capped by
`min(score, 1.0)`. -/
def get_safety_score (preferences : PyDict) : Rat :=
  let base : Rat := 4/5
  let base := if ((preferences.get "require_lighting").getD .noneVal).truthy
    then base + 1/10 else base
  let base := if ((preferences.get "require_sidewalks").getD .noneVal).truthy
    then base + 1/10 else base
  min base 1

/-! ### Single-table data frames (pandas `DataFrame`) -/

/-- A cell of a pandas data frame: numeric or string. -/
inductive Cell where
  | num (q : Rat)
  | str (s : String)
deriving Repr, DecidableEq

/-- Column-major model of a pandas `DataFrame`. -/
structure DataFrame where
  cols : List (String × List Cell)
deriving Repr, DecidableEq

/-- Embedding of `pd.DataFrame()`. -/
def DataFrame.empty : DataFrame := ⟨[]⟩

/-- Embedding of `df.empty`: true when the frame has no columns or no rows. -/
def DataFrame.isEmpty (df : DataFrame) : Bool :=
  df.cols.isEmpty || df.cols.any (fun c => c.2.isEmpty)

/-- Embedding of `name in df` (column membership). -/
def DataFrame.hasCol (df : DataFrame) (name : String) : Bool :=
  (df.cols.find? (fun c => c.1 == name)).isSome

/-- Values of a named column (empty when absent). -/
def DataFrame.getCol (df : DataFrame) (name : String) : List Cell :=
  ((df.cols.find? (fun c => c.1 == name)).map (·.2)).getD []

/-- Embedding of `df[name] = vals`: overwrite in place, or append a new
column at the end, as pandas does. -/
def DataFrame.setCol (df : DataFrame) (name : String) (vals : List Cell) : DataFrame :=
  if df.hasCol name then
    ⟨df.cols.map (fun c => if c.1 == name then (c.1, vals) else c)⟩
  else ⟨df.cols ++ [(name, vals)]⟩

/-- Column names in order. -/
def DataFrame.colNames (df : DataFrame) : List String := df.cols.map (·.1)

/-- Number of rows of a frame, `len(df)`: pandas keeps every column the same
length, so the first column's length is the row count. -/
def DataFrame.nrows (df : DataFrame) : Nat :=
  match df.cols with
  | [] => 0
  | c :: _ => c.2.length

/-! ### StandardScaler -/

/-- Fitted per-feature `(mean, scale)` parameters of a `StandardScaler`. -/
abbrev ScalerParams := List (Rat × Rat)

/-- A `StandardScaler` object: `none` is a freshly constructed, unfitted
scaler (whose `transform` raises `NotFittedError`). -/
abbrev Scaler := Option ScalerParams

/-- Numeric view of a cell; scikit-learn raises when asked to scale
non-numeric data. (Numeric-string parsing is not modelled: no route
attribute in this subsystem stores numbers as strings.) -/
def Cell.toRat : Cell → Except PyErr Rat
  | .num q => .ok q
  | .str _ => .error (.valueError "could not convert string to float")

/-- Transform one column by the fitted `(mean, scale)` pair. -/
def transformColumn (p : Rat × Rat) (cells : List Cell) : Except PyErr (List Cell) :=
  cells.mapM (fun c => do
    let x ← c.toRat
    pure (Cell.num ((x - p.1) / p.2)))

/-- Embedding of `scaler.transform` on a selection of columns: raises
`NotFittedError` on an unfitted scaler, a `ValueError` on a feature-count
mismatch with the fitted width, and otherwise maps each column through
`(x - mean) / scale`. -/
def scalerTransform (sc : Scaler) (sub : List (String × List Cell)) :
    Except PyErr (List (String × List Cell)) :=
  match sc with
  | none => .error .notFittedError
  | some ps =>
    if ps.length = sub.length then
      (sub.zip ps).mapM (fun cp => do
        let vals ← transformColumn cp.2 cp.1.2
        pure (cp.1.1, vals))
    else .error (.valueError "X has a different number of features than the fitted scaler")

/-! ### PathfinderAI (`app/ml/ai_model.py`) -/

/-- A scikit-learn classifier object. `featureNamesIn` is `some` exactly when
the estimator has been fitted (`hasattr(clf, feature_names_in_)`); the
prediction maps are the opaque learned functions, already composed with the
`[0]` first-row indexing used at every call site. -/
structure Classifier where
  featureNamesIn : Option (List String)
  predictFirst : DataFrame → Except PyErr String
  predictProbaFirst : DataFrame → Except PyErr (List Rat)

/-- A scikit-learn regressor object with its opaque learned prediction
function, composed with the `[0]` indexing used at the call site. -/
structure Regressor where
  predictFirst : DataFrame → Except PyErr Rat

/-- State of a `PathfinderAI` instance (model path and logger omitted;
`required_features` is the constant `ModelConfig.REQUIRED_FEATURES`). -/
structure PathfinderAI where
  routeClassifier : Option Classifier
  difficultyPredictor : Option Regressor
  scaler : Scaler
  modelVersion : String

/-- The constant `ModelConfig.REQUIRED_FEATURES`. -/
def REQUIRED_FEATURES : List String :=
  ["distance", "elevation_gain", "has_sidewalks", "is_lit", "surface_type"]

/-- A `PathfinderAI()` as built by `__init__`: no estimators, a fresh
unfitted scaler, version `1.0.0`. -/
def PathfinderAI.fresh : PathfinderAI :=
  { routeClassifier := none, difficultyPredictor := none, scaler := none,
    modelVersion := "1.0.0" }

/-- Embedding of Python `float(v)` on the values route attributes take. -/
def pyFloat : PyVal → Except PyErr Rat
  | .num q => .ok q
  | .boolean b => .ok (if b then 1 else 0)
  | .str _ => .error (.valueError "could not convert string to float")
  | .noneVal => .error .typeError

/-- Embedding of Python `int(v)` (truncation toward zero on numbers). -/
def pyInt : PyVal → Except PyErr Int
  | .num q => .ok (q.num / (q.den : Int))
  | .boolean b => .ok (if b then 1 else 0)
  | .str _ => .error (.valueError "invalid literal for int")
  | .noneVal => .error .typeError

/-- Embedding of Python `str(v)`. -/
def pyStr : PyVal → String
  | .str s => s
  | .num q => toString q
  | .boolean b => if b then "True" else "False"
  | .noneVal => "None"

/-- The message of the `ValueError` raised for missing route attributes. -/
def missingFeaturesMsg (missing : List String) : String :=
  "Missing required features: [" ++ String.intercalate ", " missing ++ "]"

/-- Embedding of `pd.get_dummies(df, columns=[surface_type], prefix=[surface])`
on the single-row frames built by `prepare_route_features`: the string column
is removed and a `surface_<value>` indicator column is appended. -/
def getDummiesSurface (df : DataFrame) : DataFrame :=
  if df.hasCol "surface_type" then
    match df.getCol "surface_type" with
    | [Cell.str v] =>
      ⟨(df.cols.filter (fun c => c.1 != "surface_type")) ++ [("surface_" ++ v, [Cell.num 1])]⟩
    | _ => df
  else df

/-- The `try` body of `PathfinderAI.prepare_route_features`: check required
attributes (raising a `ValueError` naming the missing ones), build the
single-row frame with numeric coercions, one-hot the surface type, and
reindex to the trained column set when the classifier has been fitted. -/
def PathfinderAI.prepareRouteFeaturesExc (s : PathfinderAI) (route : PyDict) :
    Except PyErr DataFrame := do
  let missing := REQUIRED_FEATURES.filter (fun f => !route.hasattr f)
  if missing ≠ [] then
    throw (.valueError (missingFeaturesMsg missing))
  let dist ← pyFloat ((route.get "distance").getD .noneVal)
  let egVal := (route.get "elevation_gain").getD .noneVal
  let eg ← if egVal.truthy then pyFloat egVal else pure 0
  let hs ← pyInt ((route.get "has_sidewalks").getD (.num 0))
  let il ← pyInt ((route.get "is_lit").getD (.num 0))
  let st := pyStr ((route.get "surface_type").getD (.str "unknown"))
  let features : DataFrame :=
    ⟨[("distance", [.num dist]), ("elevation_gain", [.num eg]),
      ("has_sidewalks", [.num (hs : Rat)]), ("is_lit", [.num (il : Rat)]),
      ("surface_type", [.str st])]⟩
  let features := getDummiesSurface features
  match s.routeClassifier with
  | some cls =>
    match cls.featureNamesIn with
    | some expected =>
      let withAll := expected.foldl
        (fun acc col => if acc.hasCol col then acc else acc.setCol col [Cell.num 0]) features
      pure (DataFrame.mk (expected.map (fun col => (col, withAll.getCol col))))
    | none => pure features
  | none => pure features

/-- Embedding of `PathfinderAI.prepare_route_features`: the surrounding
`try/except` returns `pd.DataFrame()` on any error. -/
def PathfinderAI.prepare_route_features (s : PathfinderAI) (route : PyDict) : DataFrame :=
  match s.prepareRouteFeaturesExc route with
  | .ok df => df
  | .error _ => DataFrame.empty

/-- The dictionary returned by `PathfinderAI.predict_route_properties`.
`errKey` models the extra `error` entry present only in the fallback dict. -/
structure RFPred where
  routeType : String
  difficultyScore : Rat
  confidenceScore : Rat
  modelVersion : String
  predictionTimestamp : Nat
  errKey : Option PyErr
deriving Repr, DecidableEq

/-- Embedding of Python `max(seq)`, which raises on an empty sequence. -/
def pyMax (l : List Rat) : Except PyErr Rat :=
  match l with
  | [] => .error (.valueError "max of an empty sequence")
  | x :: xs => .ok (xs.foldl max x)

/-- The `try` body of `PathfinderAI.predict_route_properties`, threading the
caller-visible frame (the in-place column assignment
`features[numerical_cols] = self.scaler.transform(...)` mutates the caller's
object): returns the raised error or the prediction dict, together with the
state of the caller's frame when control leaves the body. -/
def PathfinderAI.predictRouteInner (s : PathfinderAI) (features : DataFrame) (now : Nat) :
    Except PyErr RFPred × DataFrame :=
  if features.isEmpty then (.error (.valueError "Empty features provided"), features)
  else match s.routeClassifier, s.difficultyPredictor with
  | some cls, some reg =>
    let numericalCols := ["distance", "elevation_gain"].filter (features.hasCol ·)
    let scaledRes : Except PyErr DataFrame :=
      if numericalCols.isEmpty then .ok features
      else
        match scalerTransform s.scaler (numericalCols.map (fun c => (c, features.getCol c))) with
        | .error e => .error e
        | .ok sub => .ok (sub.foldl (fun acc cv => acc.setCol cv.1 cv.2) features)
    match scaledRes with
    | .error e => (.error e, features)
    | .ok features2 =>
      let res : Except PyErr RFPred :=
        match cls.predictFirst features2 with
        | .error e => .error e
        | .ok rt =>
          match reg.predictFirst features2 with
          | .error e => .error e
          | .ok diff =>
            match cls.predictProbaFirst features2 with
            | .error e => .error e
            | .ok probas =>
              match pyMax probas with
              | .error e => .error e
              | .ok conf =>
                .ok { routeType := rt, difficultyScore := diff, confidenceScore := conf,
                      modelVersion := s.modelVersion, predictionTimestamp := now,
                      errKey := none }
      (res, features2)
  | _, _ => (.error (.valueError "Models not initialized"), features)

/-- Embedding of `PathfinderAI.predict_route_properties`: the `except` arm
returns the in-method fallback dict; the second component is the caller's
frame after the call (mutated exactly when the scaling step ran). -/
def PathfinderAI.predict_route_properties (s : PathfinderAI) (features : DataFrame)
    (now : Nat) : RFPred × DataFrame :=
  match s.predictRouteInner features now with
  | (.ok p, df2) => (p, df2)
  | (.error e, df2) =>
    ({ routeType := "unknown", difficultyScore := 1/2, confidenceScore := 0,
       modelVersion := s.modelVersion, predictionTimestamp := now, errKey := some e }, df2)

/-! ### PathfinderANN (`app/ml/ann_model.py`) -/

/-- Embedding of the module-level `prepare_route_features` of `ann_model.py`:
five scalars in fixed order with per-key defaults, reshaped to one row. -/
def annPrepareRouteFeatures (routeData : List (String × Rat)) : List (List Rat) :=
  let get := fun (k : String) (dflt : Rat) =>
    (((routeData.find? (fun p => p.1 == k)).map (·.2)).getD dflt)
  [[get "distance" 0, get "elevation_gain" 0, get "traffic_level" (1/2),
    get "surface_quality" (7/10), get "safety_score" (4/5)]]

/-- Effectful map over a list, stopping at the first raised error (the
semantics of `List.mapM` in `Except`, in a directly recursive form). -/
def exceptMapList {α β : Type} (f : α → Except PyErr β) : List α → Except PyErr (List β)
  | [] => .ok []
  | x :: xs =>
    match f x with
    | .error e => .error e
    | .ok y =>
      match exceptMapList f xs with
      | .error e => .error e
      | .ok ys => .ok (y :: ys)

/-- The `self.scaler` attribute of a `PathfinderANN`: `None` after
`__init__`, an unfitted `StandardScaler` after `build_model`, or a fitted
one. -/
inductive ScalerObj where
  | noneObj
  | unfitted
  | fitted (ps : ScalerParams)

/-- Embedding of `self.scaler.transform(rows)` for the ANN scaler:
`AttributeError` on `None`, `NotFittedError` when unfitted, a `ValueError`
on a row whose width differs from the fitted width, otherwise the
per-feature affine map. -/
def ScalerObj.transform (sc : ScalerObj) (rows : List (List Rat)) :
    Except PyErr (List (List Rat)) :=
  match sc with
  | .noneObj => .error (.attributeError "transform")
  | .unfitted => .error .notFittedError
  | .fitted ps =>
    exceptMapList (fun row =>
      if row.length = ps.length then
        .ok ((row.zip ps).map (fun xp => (xp.1 - xp.2.1) / xp.2.2))
      else .error (.valueError "X has a different number of features than the fitted scaler"))
      rows

/-- The `self.model` attribute: an `MLPRegressor` is either unfitted
(`predict` raises `NotFittedError`) or fitted with an opaque learned
per-row function of a fixed input width. -/
inductive MLPObj where
  | unfitted
  | fitted (width : Nat) (f : List Rat → Rat)

/-- Embedding of `self.model.predict(rows)`. -/
def MLPObj.predict (m : MLPObj) (rows : List (List Rat)) : Except PyErr (List Rat) :=
  match m with
  | .unfitted => .error .notFittedError
  | .fitted width f =>
    exceptMapList (fun row =>
      if row.length = width then .ok (f row)
      else .error (.valueError "X has a different number of features than the fitted model"))
      rows

/-- State of a `PathfinderANN` instance. `diskLoad` is the pair that
`load_model` would install if a readable artifact file exists (`none`: no
file, or an unreadable one — either way `load_model` falls back to
`build_model` and still returns `True`). -/
structure PathfinderANN where
  model : Option MLPObj
  scaler : ScalerObj
  modelVersion : String
  diskLoad : Option (MLPObj × ScalerParams)

/-- A `PathfinderANN()` as built by `__init__` over given disk contents:
`model = None`, `scaler = None`, version `1.0.0`. -/
def PathfinderANN.fresh (disk : Option (MLPObj × ScalerParams)) : PathfinderANN :=
  { model := none, scaler := .noneObj, modelVersion := "1.0.0", diskLoad := disk }

/-- Embedding of `PathfinderANN.load_model`: install the artifact when one
loads, otherwise `build_model` (a fresh unfitted model and scaler); in every
case the method returns `True`. -/
def PathfinderANN.load_model (s : PathfinderANN) : Bool × PathfinderANN :=
  match s.diskLoad with
  | some (m, ps) => (true, { s with model := some m, scaler := .fitted ps })
  | none => (true, { s with model := some .unfitted, scaler := .unfitted })

/-- Python `np.clip(x, 0, 1)` on one scalar. -/
def clip01 (x : Rat) : Rat := min (max x 0) 1

/-- A numpy argument to `predict_route_quality`: a 1-D vector or a 2-D
matrix. -/
inductive NpInput where
  | one (xs : List Rat)
  | two (rows : List (List Rat))
deriving Repr

/-- The instance state `predict_route_quality` actually runs with: when
`self.model` is `None` it first calls `load_model`. -/
def PathfinderANN.effectiveState (s : PathfinderANN) : PathfinderANN :=
  if s.model.isNone then (s.load_model).2 else s

/-- Embedding of the reshape step: a 1-D array becomes a single row
(`features.reshape(1, -1)`). -/
def NpInput.toRows : NpInput → List (List Rat)
  | .one xs => [xs]
  | .two rows => rows

/-- The `try` body of `PathfinderANN.predict_route_quality`: lazy-load when
`self.model` is `None`, reshape a 1-D input to a single row, scale, predict,
clip into `[0,1]` and reshape to a column vector. -/
def PathfinderANN.predictRouteQualityExc (s : PathfinderANN) (x : NpInput) :
    Except PyErr (List (List Rat)) :=
  match s.effectiveState.scaler.transform x.toRows with
  | .error e => .error e
  | .ok scaled =>
    match (s.effectiveState.model.getD .unfitted).predict scaled with
    | .error e => .error e
    | .ok preds => .ok ((preds.map clip01).map (fun v => [v]))

/-- Embedding of `PathfinderANN.predict_route_quality`: the `except` arm
returns the neutral `[[0.5]]`. -/
def PathfinderANN.predict_route_quality (s : PathfinderANN) (x : NpInput) :
    List (List Rat) :=
  match s.predictRouteQualityExc x with
  | .ok r => r
  | .error _ => [[1/2]]

/-! ### On-disk artifact files and the two save operations -/

/-- State of one artifact path on disk: absent, an intact artifact written
at some tagged instant, or a half-written file left by a failed dump. -/
inductive FileState where
  | absent
  | intact (tag : Nat)
  | corrupt
deriving Repr, DecidableEq

/-- One model's slice of the filesystem: the canonical artifact path and its
`.backup` sibling. -/
structure FS where
  canonical : FileState
  backup : FileState
deriving Repr, DecidableEq

/-- Outcome of a serialisation call (`joblib.dump` / `pickle.dump`): success,
or an exception raised mid-write leaving a half-written file at the path. -/
inductive DumpOutcome where
  | success
  | failPartial
deriving Repr, DecidableEq

/-- Embedding of `PathfinderAI.save_models` over the filesystem slice of
`RF_MODEL_PATH`. `hasModels` is the guard `self.route_classifier and
self.difficulty_predictor`; `tag` identifies the artifact content being
written; `dump` is the outcome of `joblib.dump`. Follows the code: rename an
existing canonical file to `.backup`, dump, remove the backup on success; in
the `except` arm, rename the backup (if one exists) back to the canonical
path. -/
def saveModelsRF (hasModels : Bool) (fs : FS) (tag : Nat) (dump : DumpOutcome) :
    Bool × FS :=
  if !hasModels then
    -- the raised ValueError reaches the handler with the filesystem untouched
    match fs.backup with
    | .absent => (false, fs)
    | b => (false, { canonical := b, backup := .absent })
  else
    let fs1 : FS :=
      match fs.canonical with
      | .absent => fs
      | c => { canonical := .absent, backup := c }
    match dump with
    | .success =>
      let fs2 : FS := { fs1 with canonical := .intact tag }
      match fs2.backup with
      | .absent => (true, fs2)
      | _ => (true, { fs2 with backup := .absent })
    | .failPartial =>
      let fs2 : FS := { fs1 with canonical := .corrupt }
      match fs2.backup with
      | .absent => (false, fs2)
      | b => (false, { canonical := b, backup := .absent })

/-- Embedding of `PathfinderANN.save_model` over the filesystem slice of the
ANN artifact path (`pathfinder_ann.pkl`; the sidecar metadata file is not
claim-relevant and is left out). `hasModel` is the guard `if not self.model`;
the method writes the canonical path directly — there is no backup step. -/
def saveModelANN (hasModel : Bool) (fs : FS) (tag : Nat) (dump : DumpOutcome) :
    Bool × FS :=
  if !hasModel then (false, fs)
  else
    match dump with
    | .success => (true, { fs with canonical := .intact tag })
    | .failPartial => (false, { fs with canonical := .corrupt })

/-! ### ModelCoordinator (`app/ml/model_coordinator.py`) -/

/-- The prediction dictionary assembled by the coordinator. -/
structure PredictionResult where
  routeType : String
  difficultyScore : Rat
  qualityScore : Rat
  confidenceScore : Rat
  predictionTimestamp : Nat
  modelVersion : String
  isFallback : Bool
deriving Repr, DecidableEq

/-- State of a `ModelCoordinator` instance. The TTL cache is modelled as the
association list of its live entries (claims here exercise only insertion
absence and `clear`, not expiry). -/
structure ModelCoordinator where
  predictionsCache : List ((Nat × PyDict) × PredictionResult)
  rfModel : Option PathfinderAI
  annModel : Option PathfinderANN
  modelVersion : String

/-- Embedding of `ModelCoordinator.get_fallback_predictions`. -/
def ModelCoordinator.get_fallback_predictions (c : ModelCoordinator) (now : Nat) :
    PredictionResult :=
  { routeType := "mixed", difficultyScore := 1/2, qualityScore := 1/2,
    confidenceScore := 0, predictionTimestamp := now,
    modelVersion := c.modelVersion, isFallback := true }

/-- Embedding of Python attribute access `obj.name`, which raises
`AttributeError` when the attribute is absent. -/
def attrGet (r : PyDict) (name : String) : Except PyErr PyVal :=
  match r.get name with
  | some v => .ok v
  | none => .error (.attributeError name)

/-- Embedding of `ModelCoordinator.prepare_ann_features`: builds the
five-entry feature dict from the route and the preference scores, then
reshapes it through the module-level `prepare_route_features` of
`ann_model.py`. Attribute or conversion failures propagate to the caller. -/
def prepare_ann_features (route : PyDict) (prefs : PyDict) :
    Except PyErr (List (List Rat)) := do
  let distV ← attrGet route "distance"
  let dist ← pyFloat distV
  let egV ← attrGet route "elevation_gain"
  let eg ← if egV.truthy then pyFloat egV else pure 0
  pure (annPrepareRouteFeatures
    [("distance", dist), ("elevation_gain", eg),
     ("traffic_level", get_traffic_score prefs),
     ("surface_quality", get_surface_score prefs),
     ("safety_score", get_safety_score prefs)])

/-- Embedding of Python list indexing `l[i]`, raising `IndexError` out of
range. -/
def pyIndex {α : Type} (l : List α) (i : Nat) : Except PyErr α :=
  match l.get? i with
  | some v => .ok v
  | none => .error .indexError

/-- The `try` body of `ModelCoordinator._generate_predictions`: prepare both
feature sets, query both models, and merge. `self.rf_model` / `self.ann_model`
being `None` surfaces as an `AttributeError` on the method access. -/
def ModelCoordinator.generatePredictionsExc (c : ModelCoordinator) (route : PyDict)
    (prefs : PyDict) (now : Nat) : Except PyErr PredictionResult :=
  match c.rfModel with
  | none => .error (.attributeError "prepare_route_features")
  | some rf =>
    let rfFeatures := rf.prepare_route_features route
    match prepare_ann_features route prefs with
    | .error e => .error e
    | .ok annFeatures =>
      let rfPredictions := (rf.predict_route_properties rfFeatures now).1
      match c.annModel with
      | none => .error (.attributeError "predict_route_quality")
      | some ann =>
        let qualityRows := ann.predict_route_quality (.two annFeatures)
        match pyIndex qualityRows 0 with
        | .error e => .error e
        | .ok row0 =>
          match pyIndex row0 0 with
          | .error e => .error e
          | .ok annQuality =>
            .ok { routeType := rfPredictions.routeType,
                  difficultyScore := rfPredictions.difficultyScore,
                  qualityScore := annQuality,
                  confidenceScore := rfPredictions.confidenceScore,
                  predictionTimestamp := now,
                  modelVersion := c.modelVersion,
                  isFallback := false }

/-- Embedding of `ModelCoordinator._generate_predictions`: the `except` arm
returns the fallback result. -/
def ModelCoordinator.generate_predictions (c : ModelCoordinator) (route : PyDict)
    (prefs : PyDict) (now : Nat) : PredictionResult :=
  match c.generatePredictionsExc route prefs now with
  | .ok p => p
  | .error _ => c.get_fallback_predictions now

/-- The `try` body of `ModelCoordinator.get_route_predictions` (inside the
decorator): resolve the route (absent route is an early fallback return, not
an exception), prepare both feature sets, and delegate to
`_generate_predictions`. -/
def ModelCoordinator.getRoutePredictionsBodyExc (c : ModelCoordinator)
    (routeStore : Nat → Option PyDict) (routeId : Nat) (prefs : PyDict) (now : Nat) :
    Except PyErr PredictionResult := do
  match routeStore routeId with
  | none => pure (c.get_fallback_predictions now)
  | some route =>
    let rf ← match c.rfModel with
      | some rf => Except.ok rf
      | none => Except.error (.attributeError "prepare_route_features")
    let _rfFeatures := rf.prepare_route_features route
    let _annFeatures ← prepare_ann_features route prefs
    pure (c.generate_predictions route prefs now)

/-- The undecorated `get_route_predictions` method: its own `try/except`
converts every raised error into the fallback result. -/
def ModelCoordinator.getRoutePredictionsBody (c : ModelCoordinator)
    (routeStore : Nat → Option PyDict) (routeId : Nat) (prefs : PyDict) (now : Nat) :
    PredictionResult :=
  match c.getRoutePredictionsBodyExc routeStore routeId prefs now with
  | .ok p => p
  | .error _ => c.get_fallback_predictions now

/-- The object handed to `cachetools.cached` as its `cache` argument. The
code passes `lambda self: self.predictions_cache` — a function object — where
`cached` expects a mapping (per-instance caches need `cachedmethod`). -/
inductive CacheHolder where
  | lambdaFn
  | mapping (m : List ((Nat × PyDict) × PredictionResult))

/-- Embedding of the wrapper lookup `cache[k]`: subscripting a function
object raises `TypeError`; a mapping returns its entry or misses. -/
def cacheSubscriptGet (cache : CacheHolder) (k : Nat × PyDict) :
    Except PyErr (Option PredictionResult) :=
  match cache with
  | .lambdaFn => .error .typeError
  | .mapping m => .ok ((m.find? (fun p => p.1 == k)).map (·.2))

/-- Embedding of the wrapper store `cache[k] = v` (the wrapper swallows only
`ValueError` here; a `TypeError` propagates). -/
def cacheSubscriptSet (cache : CacheHolder) (k : Nat × PyDict) (v : PredictionResult) :
    Except PyErr CacheHolder :=
  match cache with
  | .lambdaFn => .error .typeError
  | .mapping m => .ok (.mapping (m ++ [(k, v)]))

/-- The decorator argument at the `get_route_predictions` definition site:
`@cached(lambda self: self.predictions_cache)` passes the lambda itself. -/
def coordinatorCacheArg : CacheHolder := .lambdaFn

/-- Embedding of the decorated `ModelCoordinator.get_route_predictions`: the
`cachetools.cached` wrapper computes the hash key of the raw arguments, looks
the key up in its cache object, and only on a miss runs the method body and
stores the result. Errors raised by the wrapper itself (outside the method's
own `try`) propagate to the caller. -/
def ModelCoordinator.get_route_predictions (c : ModelCoordinator)
    (routeStore : Nat → Option PyDict) (routeId : Nat) (prefs : PyDict) (now : Nat) :
    Except PyErr PredictionResult :=
  let k := (routeId, prefs)
  match cacheSubscriptGet coordinatorCacheArg k with
  | .error e => .error e
  | .ok (some v) => .ok v
  | .ok none =>
    let v := c.getRoutePredictionsBody routeStore routeId prefs now
    match cacheSubscriptSet coordinatorCacheArg k v with
    | .error e => .error e
    | .ok _ => .ok v

/-! ### Training paths -/

/-- Embedding of `PathfinderAI.train`. The malformed-payload check raises a
`ValueError` that the method's own handler turns into `False` with nothing
touched. Past it, the scaler is fitted in place when numeric columns are
present (its fitted parameters are an opaque training outcome, supplied as
a parameter), and the frame is split deterministically into
`int(len(X) * 0.8)` training rows: an empty training split makes
scikit-learn's `fit` raise unconditionally, and `fitOk` summarises the
remaining data-dependent fit outcomes (label-length mismatches and the
like) — either failure is caught by the handler, which returns `False`
without calling `save_models`. On fitted success the estimators are the
opaque fitted objects, the version is bumped to `1.1.<ts>` and the result
is that of `save_models`. -/
def PathfinderAI.train (s : PathfinderAI) (fs : FS) (X : DataFrame)
    (yKeys : List String) (fittedScaler : ScalerParams) (fittedCls : Classifier)
    (fittedReg : Regressor) (fitOk : Bool) (dump : DumpOutcome) (now : Nat) :
    Bool × PathfinderAI × FS :=
  if X.isEmpty || yKeys.isEmpty
      || !yKeys.contains "route_type" || !yKeys.contains "difficulty" then
    (false, s, fs)
  else
    let s1 := if (["distance", "elevation_gain"].filter (X.hasCol ·)).isEmpty then s
      else { s with scaler := some fittedScaler }
    if X.nrows * 4 / 5 = 0 || !fitOk then
      (false, s1, fs)
    else
      let s2 : PathfinderAI :=
        { s1 with routeClassifier := some fittedCls,
                  difficultyPredictor := some fittedReg,
                  modelVersion := "1.1." ++ toString now }
      let (ok, fs2) := saveModelsRF true fs now dump
      (ok, s2, fs2)

/-- Embedding of `PathfinderANN.train`: build the model if absent; a `None`
scaler raises `AttributeError` at `fit_transform`; an empty sample makes
`fit_transform` raise before fitting anything; past it the scaler is fitted
in place, and then `MLPRegressor.fit` — with `early_stopping=True` — raises
on a single sample (its validation split leaves no training data), with
`fitOk` summarising the remaining data-dependent fit outcomes. Failures are
caught by the handler (`False`, nothing saved). On success the version is
bumped and `save_model` runs, its return value ignored. -/
def PathfinderANN.train (s : PathfinderANN) (fs : FS) (X : List (List Rat))
    (y : List Rat) (fittedScaler : ScalerParams) (fittedMLP : MLPObj)
    (fitOk : Bool) (dump : DumpOutcome) (now : Nat) : Bool × PathfinderANN × FS :=
  let s1 := if s.model.isNone
    then { s with model := some .unfitted, scaler := .unfitted } else s
  match s1.scaler with
  | .noneObj => (false, s1, fs)
  | _ =>
    if X.isEmpty then (false, s1, fs)
    else
      let s2 : PathfinderANN := { s1 with scaler := .fitted fittedScaler }
      if X.length < 2 || y.isEmpty || !fitOk then (false, s2, fs)
      else
        let s3 : PathfinderANN :=
          { s2 with model := some fittedMLP,
                    modelVersion := "1.1." ++ toString now }
        let (_, fs2) := saveModelANN true fs now dump
        (true, s3, fs2)

/-- The training payload handed to `update_models`, a dict with up to four
recognised keys; a `none` field is an absent key (subscripting raises
`KeyError`). -/
structure Payload where
  rfFeatures : Option DataFrame
  rfLabels : Option (List String)
  annFeatures : Option (List (List Rat))
  annLabels : Option (List Rat)

/-- Falsiness of the payload dict (an empty dict fails the
`if not new_training_data` guard). -/
def Payload.isEmptyDict (p : Payload) : Bool :=
  p.rfFeatures.isNone && p.rfLabels.isNone && p.annFeatures.isNone && p.annLabels.isNone

/-- Embedding of `ModelCoordinator.update_models`. Disk loads performed by
`initialize_models` are summarised by `initRes` (the two model objects it
would install, `none` when it fails); fitted estimators are opaque training
outcomes. Every raised error is caught by the method and turned into
`False`. Returns (result, coordinator, RF filesystem, ANN filesystem). -/
def ModelCoordinator.update_models (c : ModelCoordinator) (fsRF fsANN : FS)
    (payload : Option Payload) (initRes : Option (PathfinderAI × PathfinderANN))
    (rfFittedScaler : ScalerParams) (fittedCls : Classifier) (fittedReg : Regressor)
    (rfFitOk : Bool) (annFittedScaler : ScalerParams) (fittedMLP : MLPObj)
    (annFitOk : Bool) (dumpRF dumpANN : DumpOutcome) (now : Nat) :
    Bool × ModelCoordinator × FS × FS :=
  match payload with
  | none => (false, c, fsRF, fsANN)
  | some p =>
    if p.isEmptyDict then (false, c, fsRF, fsANN)
    else
      let init? : Option ModelCoordinator :=
        if c.rfModel.isNone || c.annModel.isNone then
          match initRes with
          | none => none
          | some (rf, ann) =>
            some { c with rfModel := some rf, annModel := some ann,
                          modelVersion := rf.modelVersion }
        else some c
      match init? with
      | none => (false, c, fsRF, fsANN)
      | some c1 =>
        match c1.rfModel, c1.annModel with
        | some rf, some ann =>
          match p.rfFeatures with
          | none => (false, c1, fsRF, fsANN)
          | some rfX =>
            match p.rfLabels with
            | none => (false, c1, fsRF, fsANN)
            | some rfY =>
              let (rfOk, rf2, fsRF2) :=
                rf.train fsRF rfX rfY rfFittedScaler fittedCls fittedReg rfFitOk dumpRF now
              let c2 := { c1 with rfModel := some rf2 }
              match p.annFeatures with
              | none => (false, c2, fsRF2, fsANN)
              | some annX =>
                match p.annLabels with
                | none => (false, c2, fsRF2, fsANN)
                | some annY =>
                  let (annOk, ann2, fsANN2) :=
                    ann.train fsANN annX annY annFittedScaler fittedMLP annFitOk dumpANN now
                  let c3 := { c2 with annModel := some ann2 }
                  if !(rfOk && annOk) then (false, c3, fsRF2, fsANN2)
                  else
                    (true,
                     { c3 with modelVersion := "1.0." ++ toString now,
                               predictionsCache := [] },
                     fsRF2, fsANN2)
        | _, _ => (false, c1, fsRF, fsANN)

/-! ### Concrete fixtures used by witnesses and counterexamples -/

/-- A fitted classifier whose trained column set matches the frames built
from `routeGood`. -/
def clsGood : Classifier :=
  { featureNamesIn := some
      ["distance", "elevation_gain", "has_sidewalks", "is_lit", "surface_asphalt"],
    predictFirst := fun _ => .ok "road",
    predictProbaFirst := fun _ => .ok [3/5, 2/5] }

/-- A fitted difficulty regressor whose learned output is `1.5` — nothing in
the code constrains a gradient-boosted regressor to `[0,1]`. -/
def regBig : Regressor := { predictFirst := fun _ => .ok (3/2) }

/-- A fully fitted `PathfinderAI` whose scaler is the identity on the two
numeric columns. -/
def rfBig : PathfinderAI :=
  { routeClassifier := some clsGood, difficultyPredictor := some regBig,
    scaler := some [(0, 1), (0, 1)], modelVersion := "1.0.0" }

/-- A fully fitted `PathfinderANN` whose network always outputs `2`
(clipped to `1` by `predict_route_quality`). -/
def annGood : PathfinderANN :=
  { model := some (.fitted 5 (fun _ => 2)),
    scaler := .fitted [(0, 1), (0, 1), (0, 1), (0, 1), (0, 1)],
    modelVersion := "1.0.0", diskLoad := none }

/-- A route object with every required attribute. -/
def routeGood : PyDict :=
  [("distance", .num 5), ("elevation_gain", .num 100), ("has_sidewalks", .num 1),
   ("is_lit", .num 1), ("surface_type", .str "asphalt")]

/-- An initialized coordinator wired to the fixtures above. -/
def coordBig : ModelCoordinator :=
  { predictionsCache := [], rfModel := some rfBig, annModel := some annGood,
    modelVersion := "1.0.0" }

/-! ### Helper lemmas -/

theorem exceptMapList_ok_length {α β : Type} (f : α → Except PyErr β) :
    ∀ (l : List α) (l2 : List β), exceptMapList f l = .ok l2 → l2.length = l.length := by
  intro l
  induction l with
  | nil =>
    intro l2 h
    simp only [exceptMapList] at h
    injection h with h
    simp [← h]
  | cons x xs ih =>
    intro l2 h
    simp only [exceptMapList] at h
    cases hf : f x with
    | error e => rw [hf] at h; exact Except.noConfusion h
    | ok y =>
      rw [hf] at h
      dsimp only at h
      cases hr : exceptMapList f xs with
      | error e => rw [hr] at h; exact Except.noConfusion h
      | ok ys =>
        rw [hr] at h
        dsimp only at h
        injection h with h
        rw [← h]
        simp [ih ys hr]

theorem ScalerObj.transform_ok_length {sc : ScalerObj} {rows scaled : List (List Rat)}
    (h : sc.transform rows = .ok scaled) : scaled.length = rows.length := by
  cases sc with
  | noneObj => exact Except.noConfusion h
  | unfitted => exact Except.noConfusion h
  | fitted ps => exact exceptMapList_ok_length _ rows scaled h

theorem MLPObj.predict_ok_length {m : MLPObj} {rows : List (List Rat)} {preds : List Rat}
    (h : m.predict rows = .ok preds) : preds.length = rows.length := by
  cases m with
  | unfitted => exact Except.noConfusion h
  | fitted w f => exact exceptMapList_ok_length _ rows preds h

theorem clip01_bounds (x : Rat) : 0 ≤ clip01 x ∧ clip01 x ≤ 1 :=
  ⟨le_min (le_max_right x 0) zero_le_one, min_le_right _ _⟩

/-- Inversion of a successful `predictRouteQualityExc`: the result is the
clipped column vector of the network outputs, one row per input row. -/
theorem predictRouteQualityExc_ok {s : PathfinderANN} {x : NpInput}
    {r : List (List Rat)} (h : s.predictRouteQualityExc x = .ok r) :
    ∃ preds : List Rat, r = preds.map (fun v => [clip01 v])
      ∧ preds.length = x.toRows.length := by
  unfold PathfinderANN.predictRouteQualityExc at h
  cases htr : s.effectiveState.scaler.transform x.toRows with
  | error e => rw [htr] at h; exact Except.noConfusion h
  | ok scaled =>
    rw [htr] at h
    dsimp only at h
    cases hpr : (s.effectiveState.model.getD .unfitted).predict scaled with
    | error e => rw [hpr] at h; exact Except.noConfusion h
    | ok preds =>
      rw [hpr] at h
      dsimp only at h
      injection h with h
      refine ⟨preds, ?_, ?_⟩
      · rw [← h, List.map_map]
        rfl
      · rw [MLPObj.predict_ok_length hpr, ScalerObj.transform_ok_length htr]

/-- Every row of `predict_route_quality` is a one-element row with its value
in the unit interval (shared by the proofs about C2 and C10). -/
theorem predict_route_quality_mem_bounds (s : PathfinderANN) (x : NpInput) :
    ∀ row ∈ s.predict_route_quality x, row.length = 1 ∧ ∀ v ∈ row, 0 ≤ v ∧ v ≤ 1 := by
  intro row hrow
  unfold PathfinderANN.predict_route_quality at hrow
  cases hexc : s.predictRouteQualityExc x with
  | error e =>
    rw [hexc] at hrow
    dsimp only at hrow
    simp only [List.mem_singleton] at hrow
    subst hrow
    exact ⟨rfl, by intro v hv; simp only [List.mem_singleton] at hv; subst hv; norm_num⟩
  | ok r =>
    rw [hexc] at hrow
    dsimp only at hrow
    obtain ⟨preds, hr, -⟩ := predictRouteQualityExc_ok hexc
    subst hr
    simp only [List.mem_map] at hrow
    obtain ⟨u, -, rfl⟩ := hrow
    refine ⟨rfl, ?_⟩
    intro v hv
    simp only [List.mem_singleton] at hv
    subst hv
    exact clip01_bounds u

theorem foldl_max_mem (a : Rat) (l : List Rat) : l.foldl max a ∈ a :: l := by
  induction l generalizing a with
  | nil => simp
  | cons b bs ih =>
    have h := ih (max a b)
    simp only [List.foldl_cons]
    rcases List.mem_cons.mp h with h1 | h1
    · rw [h1]
      rcases max_choice a b with h2 | h2 <;> rw [h2] <;> simp
    · exact List.mem_cons_of_mem a (List.mem_cons_of_mem b h1)

theorem pyMax_mem {l : List Rat} {x : Rat} (h : pyMax l = .ok x) : x ∈ l := by
  cases l with
  | nil => exact Except.noConfusion h
  | cons a as =>
    simp only [pyMax] at h
    injection h with h
    subst h
    exact foldl_max_mem a as

/-- The frame returned by `predict_route_properties` is the one the `try`
body left behind, in both the success and the fallback arm. -/
theorem predict_route_properties_snd (s : PathfinderAI) (f : DataFrame) (now : Nat) :
    (s.predict_route_properties f now).2 = (s.predictRouteInner f now).2 := by
  unfold PathfinderAI.predict_route_properties
  rcases h : s.predictRouteInner f now with ⟨r, df2⟩
  cases r <;> simp

/-- Inversion of `pyIndex`. -/
theorem pyIndex_ok {α : Type} {l : List α} {i : Nat} {v : α}
    (h : pyIndex l i = .ok v) : l.get? i = some v := by
  unfold pyIndex at h
  cases hg : l.get? i with
  | none => rw [hg] at h; exact Except.noConfusion h
  | some w => rw [hg] at h; injection h with h; rw [h]

/-- Inversion of a successful `predictRouteInner`: the confidence score is
the Python `max` of a `predict_proba` output on the scaled frame, and the
version stamp is the instance version. -/
theorem predictRouteInner_ok {s : PathfinderAI} {f : DataFrame} {now : Nat}
    {p : RFPred} {df2 : DataFrame} (h : s.predictRouteInner f now = (.ok p, df2)) :
    ∃ cls, s.routeClassifier = some cls ∧
      ∃ probas, cls.predictProbaFirst df2 = .ok probas ∧
        pyMax probas = .ok p.confidenceScore ∧ p.modelVersion = s.modelVersion := by
  unfold PathfinderAI.predictRouteInner at h
  by_cases hemp : f.isEmpty
  · rw [if_pos hemp] at h
    simp at h
  · rw [if_neg hemp] at h
    cases hcls : s.routeClassifier with
    | none => rw [hcls] at h; simp at h
    | some cls =>
      cases hreg : s.difficultyPredictor with
      | none => rw [hcls, hreg] at h; simp at h
      | some reg =>
        rw [hcls, hreg] at h
        dsimp only at h
        set scaledRes : Except PyErr DataFrame :=
          (if (List.filter (fun c => f.hasCol c) ["distance", "elevation_gain"]).isEmpty
             then Except.ok f
           else
             match
               scalerTransform s.scaler
                 ((List.filter (fun c => f.hasCol c) ["distance", "elevation_gain"]).map
                   (fun c => (c, f.getCol c))) with
             | Except.error e => Except.error e
             | Except.ok sub =>
               Except.ok (sub.foldl (fun acc cv => acc.setCol cv.1 cv.2) f)) with hscaled
        cases hsr : scaledRes with
        | error e => rw [hsr] at h; simp at h
        | ok features2 =>
          rw [hsr] at h
          dsimp only at h
          have hsnd : features2 = df2 := congrArg Prod.snd h
          subst hsnd
          have hfst := congrArg Prod.fst h
          dsimp at hfst
          refine ⟨cls, rfl, ?_⟩
          cases hrt : cls.predictFirst features2 with
          | error e => rw [hrt] at hfst; exact Except.noConfusion hfst
          | ok rt =>
            rw [hrt] at hfst
            dsimp only at hfst
            cases hdf : reg.predictFirst features2 with
            | error e => rw [hdf] at hfst; exact Except.noConfusion hfst
            | ok diff =>
              rw [hdf] at hfst
              dsimp only at hfst
              cases hpb : cls.predictProbaFirst features2 with
              | error e => rw [hpb] at hfst; exact Except.noConfusion hfst
              | ok probas =>
                rw [hpb] at hfst
                dsimp only at hfst
                cases hmx : pyMax probas with
                | error e => rw [hmx] at hfst; exact Except.noConfusion hfst
                | ok conf =>
                  rw [hmx] at hfst
                  dsimp only at hfst
                  injection hfst with hfst
                  refine ⟨probas, rfl, ?_, ?_⟩
                  · rw [← hfst]
                    exact hmx
                  · rw [← hfst]

/-- Confidence scores coming out of `predict_route_properties` stay in the
unit interval whenever the classifier's probability outputs do (the fallback
dict carries `0.0`). -/
theorem predict_route_properties_conf_bounds {s : PathfinderAI}
    (hp : ∀ cls, s.routeClassifier = some cls →
      ∀ df l, cls.predictProbaFirst df = .ok l → ∀ q ∈ l, 0 ≤ q ∧ q ≤ 1)
    (f : DataFrame) (now : Nat) :
    0 ≤ (s.predict_route_properties f now).1.confidenceScore
      ∧ (s.predict_route_properties f now).1.confidenceScore ≤ 1 := by
  unfold PathfinderAI.predict_route_properties
  rcases hin : s.predictRouteInner f now with ⟨r, df2⟩
  cases r with
  | error e => constructor <;> norm_num
  | ok p =>
    dsimp only
    obtain ⟨cls, hcls, probas, hpb, hmx, -⟩ := predictRouteInner_ok hin
    exact hp cls hcls df2 probas hpb _ (pyMax_mem hmx)

/-- Version stamps of `predict_route_properties` always equal the instance
version. -/
theorem predict_route_properties_version (s : PathfinderAI) (f : DataFrame) (now : Nat) :
    (s.predict_route_properties f now).1.modelVersion = s.modelVersion := by
  unfold PathfinderAI.predict_route_properties
  rcases hin : s.predictRouteInner f now with ⟨r, df2⟩
  cases r with
  | error e => rfl
  | ok p =>
    dsimp only
    obtain ⟨cls, -, probas, -, -, hv⟩ := predictRouteInner_ok hin
    exact hv

/-- Inversion of a successful `generatePredictionsExc`: the quality score is
an entry of a `predict_route_quality` column vector, the confidence score is
the one from the ensemble dict, and the result is stamped with the
coordinator version and `is_fallback = false`. -/
theorem generatePredictionsExc_ok {c : ModelCoordinator} {route prefs : PyDict}
    {now : Nat} {p : PredictionResult}
    (h : c.generatePredictionsExc route prefs now = .ok p) :
    ∃ rf, c.rfModel = some rf ∧
    ∃ ann, c.annModel = some ann ∧
    ∃ annFeatures row0,
      (ann.predict_route_quality (.two annFeatures)).get? 0 = some row0 ∧
      row0.get? 0 = some p.qualityScore ∧
      p.confidenceScore =
        (rf.predict_route_properties (rf.prepare_route_features route) now).1.confidenceScore ∧
      p.modelVersion = c.modelVersion ∧ p.isFallback = false := by
  unfold ModelCoordinator.generatePredictionsExc at h
  cases hrf : c.rfModel with
  | none => rw [hrf] at h; exact Except.noConfusion h
  | some rf =>
    rw [hrf] at h
    dsimp only at h
    cases haf : prepare_ann_features route prefs with
    | error e => rw [haf] at h; exact Except.noConfusion h
    | ok annFeatures =>
      rw [haf] at h
      dsimp only at h
      cases hann : c.annModel with
      | none => rw [hann] at h; exact Except.noConfusion h
      | some ann =>
        rw [hann] at h
        dsimp only at h
        cases hi0 : pyIndex (ann.predict_route_quality (.two annFeatures)) 0 with
        | error e => rw [hi0] at h; exact Except.noConfusion h
        | ok row0 =>
          rw [hi0] at h
          dsimp only at h
          cases hi1 : pyIndex row0 0 with
          | error e => rw [hi1] at h; exact Except.noConfusion h
          | ok q =>
            rw [hi1] at h
            dsimp only at h
            injection h with h
            refine ⟨rf, rfl, ann, rfl, annFeatures, row0, pyIndex_ok hi0, ?_, ?_, ?_, ?_⟩
            · rw [← h]
              exact pyIndex_ok hi1
            · rw [← h]
            · rw [← h]
            · rw [← h]

/-- Every result of `_generate_predictions` is stamped with the current
coordinator version (both the merged and the fallback result). -/
theorem generate_predictions_version (c : ModelCoordinator) (route prefs : PyDict)
    (now : Nat) : (c.generate_predictions route prefs now).modelVersion = c.modelVersion := by
  unfold ModelCoordinator.generate_predictions
  cases h : c.generatePredictionsExc route prefs now with
  | error e => rfl
  | ok p =>
    dsimp only
    obtain ⟨rf, -, ann, -, af, r0, -, -, -, hver, -⟩ := generatePredictionsExc_ok h
    exact hver

/-! ### Claim theorems -/

/-- C8 (amended): the three preference scores follow the deterministic
lookup tables of the code and never fail on absent keys — traffic is 0.0 for
`avoid`, 0.5 for `neutral`, 0.5 for any other present value and 0.5 when
absent; surface is 1.0 for `asphalt`, 0.7 for `dirt`, 0.4 for `grass`, 0.7
for any other present value, but an absent `surface_preference` falls back
to the default `asphalt` and scores 1.0 (not 0.7 as claimed); safety starts
at 0.8, adds 0.1 per truthy `require_lighting` / `require_sidewalks`, capped
at 1.0. -/
theorem C8_preference_score_tables (prefs : PyDict) :
    (prefs.get "traffic_preference" = none → get_traffic_score prefs = 1/2)
    ∧ (prefs.getD "traffic_preference" (.str "neutral") = .str "avoid" →
        get_traffic_score prefs = 0)
    ∧ (prefs.getD "traffic_preference" (.str "neutral") = .str "neutral" →
        get_traffic_score prefs = 1/2)
    ∧ (∀ v, prefs.get "traffic_preference" = some v → v ≠ .str "avoid" →
        get_traffic_score prefs = 1/2)
    ∧ (prefs.getD "surface_preference" (.str "asphalt") = .str "asphalt" →
        get_surface_score prefs = 1)
    ∧ (prefs.getD "surface_preference" (.str "asphalt") = .str "dirt" →
        get_surface_score prefs = 7/10)
    ∧ (prefs.getD "surface_preference" (.str "asphalt") = .str "grass" →
        get_surface_score prefs = 2/5)
    ∧ (∀ v, prefs.get "surface_preference" = some v → v ≠ .str "asphalt" →
        v ≠ .str "dirt" → v ≠ .str "grass" → get_surface_score prefs = 7/10)
    ∧ (prefs.get "surface_preference" = none → get_surface_score prefs = 1)
    ∧ (((prefs.get "require_lighting").getD .noneVal).truthy = false →
        ((prefs.get "require_sidewalks").getD .noneVal).truthy = false →
        get_safety_score prefs = 4/5)
    ∧ (((prefs.get "require_lighting").getD .noneVal).truthy = true →
        ((prefs.get "require_sidewalks").getD .noneVal).truthy = false →
        get_safety_score prefs = 9/10)
    ∧ (((prefs.get "require_lighting").getD .noneVal).truthy = false →
        ((prefs.get "require_sidewalks").getD .noneVal).truthy = true →
        get_safety_score prefs = 9/10)
    ∧ (((prefs.get "require_lighting").getD .noneVal).truthy = true →
        ((prefs.get "require_sidewalks").getD .noneVal).truthy = true →
        get_safety_score prefs = 1)
    ∧ get_safety_score prefs ≤ 1 := by
  refine ⟨?_, ?_, ?_, ?_, ?_, ?_, ?_, ?_, ?_, ?_, ?_, ?_, ?_, min_le_right _ _⟩
  · intro h
    simp [get_traffic_score, PyDict.getD, h]
  · intro h
    simp [get_traffic_score, h]
  · intro h
    simp [get_traffic_score, h]
  · intro v hv hne
    simp [get_traffic_score, PyDict.getD, hv, hne, ite_self]
  · intro h
    simp [get_surface_score, h]
  · intro h
    simp [get_surface_score, h]
  · intro h
    simp [get_surface_score, h]
  · intro v hv h1 h2 h3
    simp [get_surface_score, PyDict.getD, hv, h1, h2, h3]
  · intro h
    simp [get_surface_score, PyDict.getD, h]
  · intro h1 h2
    simp [get_safety_score, h1, h2]
    norm_num
  · intro h1 h2
    simp [get_safety_score, h1, h2]
    norm_num
  · intro h1 h2
    simp [get_safety_score, h1, h2]
    norm_num
  · intro h1 h2
    simp [get_safety_score, h1, h2]
    norm_num

/-- C8 counterexample: with no `surface_preference` key at all, the derived
surface quality is 1.0 (the `asphalt` dict-default), not the claimed 0.7. -/
theorem C8_absent_surface_counterexample :
    get_surface_score [] = 1 ∧ get_surface_score [] ≠ 7/10 := by
  have h : get_surface_score [] = 1 := rfl
  refine ⟨h, ?_⟩
  rw [h]
  norm_num

/-- C8 witness: the amended table applied at concrete preference sets. -/
theorem C8_preference_score_tables_witness :
    get_traffic_score [("traffic_preference", PyVal.str "avoid")] = 0
    ∧ get_surface_score [] = 1 := by
  obtain ⟨-, h2, -, -, -, -, -, -, -, -, -, -, -, -⟩ :=
    C8_preference_score_tables [("traffic_preference", PyVal.str "avoid")]
  obtain ⟨-, -, -, -, -, -, -, -, h9, -, -, -, -, -⟩ :=
    C8_preference_score_tables ([] : PyDict)
  exact ⟨h2 (by decide), h9 (by decide)⟩

/-- C7 (amended): a route missing required attributes makes the `try` body
of `prepare_route_features` raise a `ValueError` naming exactly the absent
fields — but the method catches its own error and returns an empty frame to
the caller; no exception (and no `MissingFeatureError`, a class that does
not exist in the code) ever propagates. -/
theorem C7_missing_features_swallowed (s : PathfinderAI) (route : PyDict)
    (hmiss : REQUIRED_FEATURES.filter (fun f => !route.hasattr f) ≠ []) :
    s.prepareRouteFeaturesExc route =
      .error (.valueError (missingFeaturesMsg
        (REQUIRED_FEATURES.filter (fun f => !route.hasattr f))))
    ∧ s.prepare_route_features route = DataFrame.empty := by
  have h1 : s.prepareRouteFeaturesExc route =
      .error (.valueError (missingFeaturesMsg
        (REQUIRED_FEATURES.filter (fun f => !route.hasattr f)))) := by
    unfold PathfinderAI.prepareRouteFeaturesExc
    rw [if_pos hmiss]
    rfl
  refine ⟨h1, ?_⟩
  unfold PathfinderAI.prepare_route_features
  rw [h1]

/-- C7 counterexample: called on an object with no attributes at all, the
feature preparation returns normally with `pd.DataFrame()` — it does not
fail with any exception, let alone a `MissingFeatureError`. -/
theorem C7_counterexample :
    PathfinderAI.fresh.prepare_route_features [] = DataFrame.empty
    ∧ PathfinderAI.fresh.prepareRouteFeaturesExc [] =
        .error (.valueError (missingFeaturesMsg REQUIRED_FEATURES)) :=
  ⟨rfl, rfl⟩

/-- C7 witness: a route exposing only `distance` is rejected internally and
the caller receives the empty frame. -/
theorem C7_missing_features_witness :
    PathfinderAI.fresh.prepare_route_features [("distance", PyVal.num 1)]
      = DataFrame.empty :=
  (C7_missing_features_swallowed PathfinderAI.fresh [("distance", PyVal.num 1)]
    (by decide)).2

/-- C1: contrary to the claimed never-raise boundary, every call of the
decorated `get_route_predictions` raises `TypeError` — the decorator
`@cached(lambda self: self.predictions_cache)` hands `cachetools.cached` a
function object as its cache, and the wrapper's `cache[k]` lookup runs
before the method body's `try` block. -/
theorem C1_decorated_call_always_raises (c : ModelCoordinator)
    (store : Nat → Option PyDict) (routeId : Nat) (prefs : PyDict) (now : Nat) :
    c.get_route_predictions store routeId prefs now = .error .typeError := rfl

/-- Two preference dicts holding the same pairs in opposite order. -/
def prefsPermA : PyDict :=
  [("surface_preference", .str "dirt"), ("traffic_preference", .str "avoid")]

/-- The same pairs as `prefsPermA`, inserted in the other order. -/
def prefsPermB : PyDict :=
  [("traffic_preference", .str "avoid"), ("surface_preference", .str "dirt")]

/-- C6: no sorted `key:value` cache key is ever derived — for two permuted
preference sets, both calls fail with the decorator's `TypeError` before any
key is used, so neither maps to a cached result. -/
theorem C6_no_cache_key_is_derived :
    coordBig.get_route_predictions (fun _ => some routeGood) 5 prefsPermA 7
      = .error .typeError
    ∧ coordBig.get_route_predictions (fun _ => some routeGood) 5 prefsPermB 7
      = .error .typeError :=
  ⟨rfl, rfl⟩

/-- C4 counterexample: the neural regressor's `save_model` has no backup
step — with an intact artifact on disk, a dump failure leaves the canonical
path corrupt and nothing is restored. -/
theorem C4_ann_save_counterexample :
    saveModelANN true ⟨.intact 1, .absent⟩ 2 .failPartial
      = (false, ⟨.corrupt, .absent⟩)
    ∧ FileState.corrupt ≠ FileState.intact 1 := by
  exact ⟨rfl, by decide⟩

/-- C4 (amended): the backup/restore protocol holds for the ensemble's
`save_models` (new artifact in place and backup removed on success; previous
artifact restored on a failed dump), but the neural `save_model` writes the
canonical path directly: a failed dump leaves it corrupt with no backup
taken. -/
theorem C4_backup_protocol_amended (fs : FS) (v tag : Nat)
    (hc : fs.canonical = .intact v) (hb : fs.backup = .absent) :
    saveModelsRF true fs tag .success = (true, ⟨.intact tag, .absent⟩)
    ∧ saveModelsRF true fs tag .failPartial = (false, ⟨.intact v, .absent⟩)
    ∧ ∀ (fs2 : FS) (tag2 : Nat),
        saveModelANN true fs2 tag2 .failPartial
          = (false, { fs2 with canonical := .corrupt }) := by
  rcases fs with ⟨c, b⟩
  dsimp at hc hb
  subst hc
  subst hb
  exact ⟨rfl, rfl, fun fs2 tag2 => rfl⟩

/-- C4 witness: a failed ensemble dump restores the version-3 artifact. -/
theorem C4_backup_protocol_witness :
    saveModelsRF true ⟨.intact 3, .absent⟩ 9 .failPartial
      = (false, ⟨.intact 3, .absent⟩) :=
  (C4_backup_protocol_amended ⟨.intact 3, .absent⟩ 3 9 rfl rfl).2.1

/-- C10: `predict_route_quality` is total — its `except` arm converts every
internal failure into the neutral `[[0.5]]`; every returned row is a
one-element row with its value clipped into `[0,1]`; a successful prediction
has one output row per input row, a 1-D input having been reshaped to a
single row. -/
theorem C10_predict_quality_guarded (s : PathfinderANN) (x : NpInput) :
    (∀ row ∈ s.predict_route_quality x,
        row.length = 1 ∧ ∀ v ∈ row, 0 ≤ v ∧ v ≤ 1)
    ∧ (∀ e, s.predictRouteQualityExc x = .error e →
        s.predict_route_quality x = [[1/2]])
    ∧ (∀ r, s.predictRouteQualityExc x = .ok r → r.length = x.toRows.length)
    ∧ (∀ xs, x = .one xs → x.toRows.length = 1) := by
  refine ⟨predict_route_quality_mem_bounds s x, ?_, ?_, ?_⟩
  · intro e he
    unfold PathfinderANN.predict_route_quality
    rw [he]
  · intro r hr
    obtain ⟨preds, hmap, hlen⟩ := predictRouteQualityExc_ok hr
    rw [hmap, List.length_map, hlen]
  · intro xs hx
    subst hx
    rfl

/-- C10 witness: a 1-D input through the fitted fixture network. -/
theorem C10_predict_quality_witness :
    annGood.predictRouteQualityExc (NpInput.one [1, 2, 3, 4, 5]) = .ok [[1]]
    ∧ [[(1 : Rat)]].length = (NpInput.one [1, 2, 3, 4, 5]).toRows.length := by
  refine ⟨rfl, ?_⟩
  exact (C10_predict_quality_guarded annGood (NpInput.one [1, 2, 3, 4, 5])).2.2.1
    [[1]] rfl

/-- C9 counterexample: on a fresh (uninitialized) instance the call returns
before the scaling line, and the caller's frame still holds the supplied
values — the claimed unconditional in-place transformation does not happen
for every frame with a `distance` column. -/
theorem C9_no_mutation_counterexample :
    (PathfinderAI.fresh.predict_route_properties ⟨[("distance", [Cell.num 5])]⟩ 0).2
      = ⟨[("distance", [Cell.num 5])]⟩
    ∧ DataFrame.hasCol ⟨[("distance", [Cell.num 5])]⟩ "distance" = true :=
  ⟨rfl, rfl⟩

/-- C9 (amended): when the frame is nonempty, both estimators are present,
at least one of the numeric columns exists and the scaler transform of the
present numeric columns succeeds, `predict_route_properties` mutates the
caller's frame in place: after the call it is the frame with those columns
overwritten by the transformed values (whatever the later prediction steps
do). On the guard and scaling failure paths — an empty frame, an
uninitialized classifier or regressor, or a failing transform (unfitted
scaler, width mismatch, non-numeric cells) — the caller's frame is returned
unchanged. -/
theorem C9_inplace_scaling_amended (s : PathfinderAI) (features : DataFrame)
    (now : Nat) :
    (∀ (cls : Classifier) (reg : Regressor) (sub : List (String × List Cell)),
      s.routeClassifier = some cls → s.difficultyPredictor = some reg →
      features.isEmpty = false →
      (["distance", "elevation_gain"].filter (features.hasCol ·)).isEmpty = false →
      scalerTransform s.scaler
          ((["distance", "elevation_gain"].filter (features.hasCol ·)).map
            (fun c => (c, features.getCol c))) = .ok sub →
      (s.predict_route_properties features now).2
        = sub.foldl (fun acc cv => acc.setCol cv.1 cv.2) features)
    ∧ (features.isEmpty = true →
        (s.predict_route_properties features now).2 = features)
    ∧ (s.routeClassifier = none ∨ s.difficultyPredictor = none →
        (s.predict_route_properties features now).2 = features)
    ∧ (∀ e : PyErr,
        (["distance", "elevation_gain"].filter (features.hasCol ·)).isEmpty = false →
        scalerTransform s.scaler
            ((["distance", "elevation_gain"].filter (features.hasCol ·)).map
              (fun c => (c, features.getCol c))) = .error e →
        (s.predict_route_properties features now).2 = features) := by
  rw [predict_route_properties_snd]
  refine ⟨?_, ?_, ?_, ?_⟩
  · intro cls reg sub h1 h2 h3 h4 h5
    unfold PathfinderAI.predictRouteInner
    rw [h1, h2]
    simp only [h3, Bool.false_eq_true, if_false, h4, h5]
  · intro h3
    unfold PathfinderAI.predictRouteInner
    simp only [h3, if_true]
  · intro hnone
    unfold PathfinderAI.predictRouteInner
    by_cases h3 : features.isEmpty
    · simp only [h3, if_true]
    · simp only [h3, Bool.false_eq_true, if_false]
      rcases hnone with hc | hr
      · rw [hc]
      · rw [hr]
        cases s.routeClassifier <;> rfl
  · intro e h4 h5
    unfold PathfinderAI.predictRouteInner
    by_cases h3 : features.isEmpty
    · simp only [h3, if_true]
    · simp only [h3, Bool.false_eq_true, if_false]
      cases hc : s.routeClassifier with
      | none => rfl
      | some cls =>
        cases hr : s.difficultyPredictor with
        | none => rfl
        | some reg =>
          simp only [h4, Bool.false_eq_true, if_false, h5]

/-- The fixture ensemble with a scaler that actually shifts the distance
column. -/
def rfShift : PathfinderAI :=
  { routeClassifier := some clsGood, difficultyPredictor := some regBig,
    scaler := some [(1, 2), (0, 1)], modelVersion := "1.0.0" }

/-- A two-column numeric frame handed to the witness call. -/
def dfShiftIn : DataFrame :=
  ⟨[("distance", [Cell.num 5]), ("elevation_gain", [Cell.num 100])]⟩

/-- C9 witness: the caller's frame after the call holds `(5-1)/2 = 2` in the
distance column. -/
theorem C9_inplace_scaling_witness :
    (rfShift.predict_route_properties dfShiftIn 0).2.getCol "distance"
      = [Cell.num 2] := by
  have h := (C9_inplace_scaling_amended rfShift dfShiftIn 0).1 clsGood regBig
    [("distance", [Cell.num ((5 - 1) / 2)]), ("elevation_gain", [Cell.num ((100 - 0) / 1)])]
    rfl rfl rfl rfl rfl
  rw [h]
  show [Cell.num ((5 - 1) / 2)] = [Cell.num 2]
  norm_num

/-- C2 counterexample: with a fitted ensemble whose difficulty regressor has
learned to output `1.5`, a fully successful (non-fallback) prediction carries
`difficulty_score = 1.5` — the code never clamps the regressor output, so
the claimed `[0,1]` bound fails. -/
theorem C2_difficulty_unbounded_counterexample :
    (coordBig.generate_predictions routeGood [] 0).difficultyScore = 3/2
    ∧ ¬ ((coordBig.generate_predictions routeGood [] 0).difficultyScore ≤ 1)
    ∧ (coordBig.generate_predictions routeGood [] 0).isFallback = false := by
  have h : (coordBig.generate_predictions routeGood [] 0).difficultyScore = 3/2 := rfl
  refine ⟨h, ?_, rfl⟩
  rw [h]
  norm_num

/-- C2 (amended): `quality_score` is always in `[0,1]` (clipped on success,
`0.5` on fallback), and `confidence_score` is in `[0,1]` whenever the
classifier's `predict_proba` outputs are probabilities (as scikit-learn
guarantees); `difficulty_score` is the raw regressor output and is not
bounded by the code. -/
theorem C2_scores_unit_interval_amended (c : ModelCoordinator)
    (route prefs : PyDict) (now : Nat) :
    (0 ≤ (c.generate_predictions route prefs now).qualityScore
      ∧ (c.generate_predictions route prefs now).qualityScore ≤ 1)
    ∧ ((∀ rf, c.rfModel = some rf → ∀ cls, rf.routeClassifier = some cls →
          ∀ df l, cls.predictProbaFirst df = .ok l → ∀ q ∈ l, 0 ≤ q ∧ q ≤ 1) →
        0 ≤ (c.generate_predictions route prefs now).confidenceScore
          ∧ (c.generate_predictions route prefs now).confidenceScore ≤ 1) := by
  constructor
  · unfold ModelCoordinator.generate_predictions
    cases h : c.generatePredictionsExc route prefs now with
    | error e =>
      dsimp only [ModelCoordinator.get_fallback_predictions]
      constructor <;> norm_num
    | ok p =>
      dsimp only
      obtain ⟨rf, -, ann, -, af, r0, hr0, hq, -, -, -⟩ := generatePredictionsExc_ok h
      have hrow := predict_route_quality_mem_bounds ann (.two af) r0 (List.get?_mem hr0)
      exact hrow.2 _ (List.get?_mem hq)
  · intro hp
    unfold ModelCoordinator.generate_predictions
    cases h : c.generatePredictionsExc route prefs now with
    | error e =>
      dsimp only [ModelCoordinator.get_fallback_predictions]
      constructor <;> norm_num
    | ok p =>
      dsimp only
      obtain ⟨rf, hrf, ann, -, af, r0, -, -, hconf, -, -⟩ := generatePredictionsExc_ok h
      rw [hconf]
      exact predict_route_properties_conf_bounds (hp rf hrf) _ now

/-- C2 witness: the fixture coordinator's probability vector is
`[0.6, 0.4]`, so the theorem bounds its confidence score. -/
theorem C2_scores_witness :
    0 ≤ (coordBig.generate_predictions routeGood [] 0).confidenceScore
    ∧ (coordBig.generate_predictions routeGood [] 0).confidenceScore ≤ 1 := by
  refine (C2_scores_unit_interval_amended coordBig routeGood [] 0).2 ?_
  intro rf hrf cls hcls df l hl q hq
  have h1 : some rfBig = some rf := hrf
  injection h1 with h1
  subst h1
  have h2 : some clsGood = some cls := hcls
  injection h2 with h2
  subst h2
  have h3 : Except.ok [(3 : Rat)/5, 2/5] = Except.ok l := hl
  injection h3 with h3
  subst h3
  simp only [List.mem_cons, List.mem_singleton, List.not_mem_nil, or_false] at hq
  rcases hq with rfl | rfl
  · constructor <;> norm_num
  · constructor <;> norm_num

/-- A five-row training frame for the ensemble: the deterministic 80/20
split leaves 4 training rows and 1 validation row, so scikit-learn fitting
genuinely goes through on it. -/
def dfTrainFix : DataFrame :=
  ⟨[("distance", [Cell.num 1, Cell.num 2, Cell.num 3, Cell.num 4, Cell.num 5])]⟩

/-- A training payload with a valid ensemble part and no neural keys. -/
def payloadNoAnn : Payload :=
  { rfFeatures := some dfTrainFix, rfLabels := some ["route_type", "difficulty"],
    annFeatures := none, annLabels := none }

/-- The fitted-scaler parameter fixture used by update calls. -/
def scalerFix : ScalerParams := [(0, 1), (0, 1)]

/-- The fitted ANN scaler fixture used by update calls. -/
def annScalerFix : ScalerParams := [(0, 1), (0, 1), (0, 1), (0, 1), (0, 1)]

/-- C5 counterexample: a payload whose ensemble part is valid (five rows,
both label sets, nonempty 80/20 split, successful fits and dump) but whose
`ann_features` key is absent makes `update_models` return `false` only
*after* the ensemble has been trained and its artifact saved — the RF
artifact file on disk has changed. -/
theorem C5_rf_artifact_written_counterexample :
    (coordBig.update_models ⟨.intact 1, .absent⟩ ⟨.intact 1, .absent⟩
        (some payloadNoAnn) none scalerFix clsGood regBig true annScalerFix
        (.fitted 5 (fun _ => 2)) true .success .success 99).1 = false
    ∧ (coordBig.update_models ⟨.intact 1, .absent⟩ ⟨.intact 1, .absent⟩
        (some payloadNoAnn) none scalerFix clsGood regBig true annScalerFix
        (.fitted 5 (fun _ => 2)) true .success .success 99).2.2.1
      = ⟨.intact 99, .absent⟩
    ∧ FileState.intact 1 ≠ FileState.intact 99 := by
  refine ⟨rfl, rfl, by decide⟩

/-- C5 (amended): on an initialized coordinator, a payload missing any of
the four training keys makes `update_models` return `false` with the cache
and the coordinator version untouched; when an *ensemble* key is missing
nothing at all is touched (artifact files included), but when only a neural
key is missing the ensemble training has already run — and when that
training succeeds, its artifact has already been saved — before the failure
(see the counterexample). -/
theorem C5_missing_payload_keys_amended (c : ModelCoordinator) (rf : PathfinderAI)
    (ann : PathfinderANN) (fsRF fsANN : FS) (p : Payload)
    (initRes : Option (PathfinderAI × PathfinderANN)) (rfS : ScalerParams)
    (cls : Classifier) (reg : Regressor) (rfFit : Bool) (annS : ScalerParams)
    (mlp : MLPObj) (annFit : Bool) (dRF dANN : DumpOutcome) (now : Nat)
    (hrf : c.rfModel = some rf) (hann : c.annModel = some ann)
    (hne : p.isEmptyDict = false) :
    (p.rfFeatures = none ∨ p.rfLabels = none →
      c.update_models fsRF fsANN (some p) initRes rfS cls reg rfFit annS mlp annFit
          dRF dANN now
        = (false, c, fsRF, fsANN))
    ∧ ((p.annFeatures = none ∨ p.annLabels = none) →
        (c.update_models fsRF fsANN (some p) initRes rfS cls reg rfFit annS mlp annFit
            dRF dANN now).1 = false
        ∧ (c.update_models fsRF fsANN (some p) initRes rfS cls reg rfFit annS mlp
            annFit dRF dANN now).2.1.predictionsCache = c.predictionsCache
        ∧ (c.update_models fsRF fsANN (some p) initRes rfS cls reg rfFit annS mlp
            annFit dRF dANN now).2.1.modelVersion = c.modelVersion) := by
  obtain ⟨cache, rfM, annM, ver⟩ := c
  dsimp at hrf hann
  subst hrf
  subst hann
  constructor
  · intro hmiss
    unfold ModelCoordinator.update_models
    simp only [hne, Bool.false_eq_true, if_false]
    rcases hmiss with hF | hL
    · rw [hF]
      rfl
    · cases hF : p.rfFeatures with
      | none => rfl
      | some rfX =>
        rw [hL]
        rfl
  · intro hmiss
    unfold ModelCoordinator.update_models
    simp only [hne, Bool.false_eq_true, if_false]
    cases hF : p.rfFeatures with
    | none => exact ⟨rfl, rfl, rfl⟩
    | some rfX =>
      cases hL : p.rfLabels with
      | none => exact ⟨rfl, rfl, rfl⟩
      | some rfY =>
        rcases hmiss with hA | hB
        · rw [hA]
          exact ⟨rfl, rfl, rfl⟩
        · cases hA : p.annFeatures with
          | none => exact ⟨rfl, rfl, rfl⟩
          | some annX =>
            rw [hB]
            exact ⟨rfl, rfl, rfl⟩

/-- A training payload whose `rf_labels` key is absent. -/
def payloadNoRfLabels : Payload :=
  { rfFeatures := some dfTrainFix, rfLabels := none,
    annFeatures := some [[1, 2, 3, 4, 5]], annLabels := some [1] }

/-- C5 witness: a payload missing only `rf_labels` changes nothing. -/
theorem C5_missing_payload_keys_witness :
    coordBig.update_models ⟨.intact 1, .absent⟩ ⟨.intact 1, .absent⟩
        (some payloadNoRfLabels)
        none scalerFix clsGood regBig true annScalerFix (.fitted 5 (fun _ => 2))
        true .success .success 99
      = (false, coordBig, ⟨.intact 1, .absent⟩, ⟨.intact 1, .absent⟩) :=
  (C5_missing_payload_keys_amended coordBig rfBig annGood ⟨.intact 1, .absent⟩
      ⟨.intact 1, .absent⟩ payloadNoRfLabels none scalerFix clsGood regBig true
      annScalerFix (.fitted 5 (fun _ => 2)) true .success .success 99
      rfl rfl rfl).1 (Or.inr rfl)

/-- C3: when `update_models` reports success, the prediction cache has been
fully cleared, the coordinator version has been rederived from the current
timestamp, and every subsequently created result (merged or fallback) is
stamped with exactly that new version — no stale-version entry can be
served. -/
theorem C3_update_success_invalidates_and_stamps (c : ModelCoordinator)
    (fsRF fsANN : FS) (payload : Option Payload)
    (initRes : Option (PathfinderAI × PathfinderANN)) (rfS : ScalerParams)
    (cls : Classifier) (reg : Regressor) (rfFit : Bool) (annS : ScalerParams)
    (mlp : MLPObj) (annFit : Bool) (dRF dANN : DumpOutcome) (now : Nat)
    (c3 : ModelCoordinator) (fs1 fs2 : FS)
    (h : c.update_models fsRF fsANN payload initRes rfS cls reg rfFit annS mlp annFit
          dRF dANN now
          = (true, c3, fs1, fs2)) :
    c3.predictionsCache = [] ∧ c3.modelVersion = "1.0." ++ toString now
    ∧ ∀ route prefs now2,
        (c3.generate_predictions route prefs now2).modelVersion = c3.modelVersion := by
  unfold ModelCoordinator.update_models at h
  split at h
  · simp at h
  · split at h
    · simp at h
    · dsimp only at h
      split at h
      · simp at h
      · split at h
        · split at h
          · simp at h
          · split at h
            · simp at h
            · split at h
              · simp at h
              · split at h
                · simp at h
                · split at h
                  · simp at h
                  · simp only [Prod.mk.injEq] at h
                    obtain ⟨-, hc3, -, -⟩ := h
                    subst hc3
                    refine ⟨rfl, rfl, ?_⟩
                    intro route prefs now2
                    exact generate_predictions_version _ route prefs now2
        · simp at h

/-- A complete, well-formed training payload: five ensemble rows (nonempty
80/20 split) and two neural samples (enough for the early-stopping
validation split). -/
def payloadFull : Payload :=
  { rfFeatures := some dfTrainFix,
    rfLabels := some ["route_type", "difficulty"],
    annFeatures := some [[1, 2, 3, 4, 5], [2, 3, 4, 5, 6]],
    annLabels := some [1, 0] }

/-- C3 witness: a concrete fully successful update at timestamp 99. -/
theorem C3_update_success_witness :
    ((coordBig.update_models ⟨.intact 1, .absent⟩ ⟨.intact 1, .absent⟩
        (some payloadFull)
        none scalerFix clsGood regBig true annScalerFix (.fitted 5 (fun _ => 2))
        true .success .success 99).2.1).predictionsCache = []
    ∧ ((coordBig.update_models ⟨.intact 1, .absent⟩ ⟨.intact 1, .absent⟩
        (some payloadFull)
        none scalerFix clsGood regBig true annScalerFix (.fitted 5 (fun _ => 2))
        true .success .success 99).2.1).modelVersion = "1.0." ++ toString 99 := by
  have h := C3_update_success_invalidates_and_stamps coordBig
    ⟨.intact 1, .absent⟩ ⟨.intact 1, .absent⟩ (some payloadFull)
    none scalerFix clsGood regBig true annScalerFix (.fitted 5 (fun _ => 2))
    true .success .success 99 _ _ _ rfl
  exact ⟨h.1, h.2.1⟩

end PaTHFinder
